import Mathlib

/-!
Shallow embedding of `src/epsagon/tracer.go` (package `epsagon`).

The Go program is a process-wide singleton tracer: `CreateTracer` resolves
config defaults and launches a background run loop (`Run`); the free
functions `AddEvent` / `AddException` / `StopTracer` delegate to the
singleton or log a warning.  Events and exceptions travel over unbuffered
channels (`eventsPipe`, `exceptionsPipe`), so an `AddEvent` call returns
only after the run loop has appended the value to its buffer; `Stop` sends
on `closeCmd` and waits for `stopped` to be closed, which happens after the
one-shot flush (`sendTraces`).  Because every public call is a synchronous
handoff with the single consumer, a sequence of API calls from one caller
is faithfully modelled by a sequential interpreter: each call's effect on
the buffers happens before the call returns.

External collaborators are modelled by an `Oracle`:
- `jsonpb` marshaling of the `protocol.Trace` record either succeeds
  (the payload is the `Trace` record itself, serialization treated as an
  opaque injective encoding) or fails (`marshalFails`);
- `http.Client.Post` either returns a response (err = nil, any status
  code, including non-2xx such as 500) or a transport error (err ≠ nil,
  in which case the `*http.Response` is nil — Go's client contract).

`*Config` pointers are modelled by a heap `Nat → Option Config`; the Go
code mutates the caller's `Config` in place (`fillConfigDefaults(config)`)
and stores the same pointer in the tracer, which the heap makes visible.

Log output is modelled as a list of `LogMsg` values, one constructor per
`log.Print*` call site in the source.  A Go `panic` in the background
goroutine (which crashes the whole process) is modelled by the sticky
`crashed` flag.
-/

namespace Epsagon

/-- `protocol.Event`: opaque record representing one traced operation. -/
structure Event where
  id : Nat
deriving DecidableEq, Repr

/-- `protocol.Exception`: opaque record representing one reported error. -/
structure Exception where
  id : Nat
deriving DecidableEq, Repr

/-- `Config` from tracer.go lines 32-38. -/
structure Config where
  ApplicationName : String
  Token : String
  CollectorURL : String
  MetadataOnly : Bool
  Debug : Bool
deriving DecidableEq, Repr

/-- The environment variables the source reads via `os.Getenv`:
`EPSAGON_DEBUG`, `EPSAGON_TOKEN`, `AWS_REGION`.  An unset variable is the
empty string, as in Go. -/
structure Env where
  EPSAGON_DEBUG : String
  EPSAGON_TOKEN : String
  AWS_REGION : String
deriving DecidableEq, Repr

/-- One constructor per `log.Print*` call site of tracer.go. -/
inductive LogMsg where
  /-- "The tracer is already created" (CreateTracer, line 142) -/
  | tracerAlreadyCreated
  /-- "The tracer is not initialized!" (free AddEvent / AddException /
  StopTracer, lines 179, 189, 210) -/
  | tracerNotInitialized
  /-- "Epsagon: Encountered an error while marshaling the traces: %v"
  (sendTraces, line 57) -/
  | marshalError
  /-- "Error while sending traces \n%v\n%v\n" (sendTraces, line 67).
  Unreachable in practice: when `client.Post` returns a non-nil error the
  response is nil, and line 65 dereferences it before this log runs. -/
  | errorWhileSendingTraces (err : String) (respBody : String)
  /-- "EPSAGON DEBUG: setting token from environment variable" (line 121) -/
  | debugSettingToken
  /-- "EPSAGON DEBUG: setting collector url to %s" (line 132) -/
  | debugSettingCollectorURL (url : String)
  /-- "EPSAGON DEBUG: Created a new tracer" (line 157) -/
  | debugCreatedTracer
  /-- "EPSAGON DEBUG: tracer started running" (Run, line 220) -/
  | debugTracerStarted
  /-- "EPSAGON DEBUG: Adding event: " (method AddEvent, line 171) -/
  | debugAddingEvent (e : Event)
  /-- "EPSAGON DEBUG: tracer stops running, sending traces" (Run, line 237) -/
  | debugTracerStopsRunning
  /-- "Final Traces: %s " (getTraceReader, line 88) -/
  | debugFinalTraces
deriving DecidableEq, Repr

/-- `fillConfigDefaults` (tracer.go lines 112-135): fills Debug from
`EPSAGON_DEBUG`, Token from `EPSAGON_TOKEN` when empty, CollectorURL from
`AWS_REGION` (or the fixed us-east-1 URL) when empty.  Returns the mutated
config together with the debug log lines it emits. -/
def fillConfigDefaults (env : Env) (config : Config) : Config × List LogMsg :=
  let config :=
    if !config.Debug then
      if env.EPSAGON_DEBUG = "TRUE" then { config with Debug := true } else config
    else config
  let (config, tokenLogs) :=
    if config.Token.length = 0 then
      ({ config with Token := env.EPSAGON_TOKEN },
       if config.Debug then [LogMsg.debugSettingToken] else [])
    else (config, [])
  let (config, urlLogs) :=
    if config.CollectorURL.length = 0 then
      let url :=
        if env.AWS_REGION.length ≠ 0 then
          "http://" ++ env.AWS_REGION ++ ".tc.epsagon.com"
        else "http://us-east-1.tc.epsagon.com"
      ({ config with CollectorURL := url },
       if config.Debug then [LogMsg.debugSettingCollectorURL url] else [])
    else (config, [])
  (config, tokenLogs ++ urlLogs)

/-- `protocol.Trace` as populated by `getTraceReader` (lines 73-80). -/
structure Trace where
  AppName : String
  Token : String
  Events : List Event
  Exceptions : List Exception
  Version : String
  Platform : String
deriving DecidableEq, Repr

/-- Outcome of `http.Client.Post`: either a response was received
(err = nil; the status code may be anything, including 500) or the
transport failed (err ≠ nil, and the `*http.Response` is nil). -/
inductive PostResult where
  | response (status : Nat) (body : String)
  | netError (err : String)
deriving DecidableEq, Repr

/-- Oracle for the external collaborators: `runtime.Version()`, the
`jsonpb` marshaler outcome, and the HTTP transport outcome. -/
structure Oracle where
  platform : String
  marshalFails : Bool
  postResult : PostResult
deriving DecidableEq, Repr

/-- One HTTP POST request as issued by `client.Post` (line 62).  The body
is the `Trace` record, serialization being treated as opaque. -/
structure Post where
  url : String
  contentType : String
  body : Trace
deriving DecidableEq, Repr

/-- `getTraceReader` (lines 71-91): builds the `protocol.Trace`,
marshals it (Version is the literal "0.0.1", Platform is
`runtime.Version()`), logs the payload in debug mode.  Returns `none`
exactly when marshaling fails. -/
def getTraceReader (oracle : Oracle) (cfg : Config)
    (events : List Event) (exceptions : List Exception) :
    Option Trace × List LogMsg :=
  let trace : Trace :=
    { AppName := cfg.ApplicationName
      Token := cfg.Token
      Events := events
      Exceptions := exceptions
      Version := "0.0.1"
      Platform := oracle.platform }
  if oracle.marshalFails then (none, [])
  else (some trace, if cfg.Debug then [LogMsg.debugFinalTraces] else [])

/-- Result of one `sendTraces` call: the POST requests issued, the log
lines emitted, and whether the goroutine panicked. -/
structure SendResult where
  posts : List Post
  logs : List LogMsg
  panicked : Bool
deriving DecidableEq, Repr

/-- `sendTraces` (lines 53-69).  On marshal error: log and return, no
POST.  Otherwise POST the payload to `Config.CollectorURL`.  If
`client.Post` returns a non-nil error, `resp` is nil and line 65
(`resp.Body.Read`) panics before the log on line 67 is reached.  If a
response arrives (err = nil), the function returns without inspecting the
status code: a 500 is treated exactly like a 200 and nothing is logged. -/
def sendTraces (oracle : Oracle) (cfg : Config)
    (events : List Event) (exceptions : List Exception) : SendResult :=
  match getTraceReader oracle cfg events exceptions with
  | (none, logs) => { posts := [], logs := logs ++ [LogMsg.marshalError], panicked := false }
  | (some trace, logs) =>
    let post : Post := { url := cfg.CollectorURL, contentType := "application/json", body := trace }
    match oracle.postResult with
    | PostResult.response _ _ => { posts := [post], logs := logs, panicked := false }
    | PostResult.netError _ => { posts := [post], logs := logs, panicked := true }

/-- `isChannelPinged` (lines 93-100) applied to the `running` / `stopped`
channels.  Nothing is ever sent on these channels; they are only ever
closed, so the non-blocking receive succeeds iff the channel is closed.
A channel is therefore modelled by its closed-flag. -/
def isChannelPinged (closed : Bool) : Bool := closed

/-- `epsagonTracer` (lines 40-51).  The event/exception buffers are owned
by the run loop; the pipes are synchronous, so the buffers here always
reflect the handoffs that have completed.  `runningClosed` / `stoppedClosed`
model the closed-state of the `running` / `stopped` channels; the Config
pointer is a heap reference. -/
structure TracerState where
  configRef : Nat
  events : List Event
  exceptions : List Exception
  runningClosed : Bool
  stoppedClosed : Bool
deriving DecidableEq, Repr

/-- Method `Running` (lines 103-105). -/
def TracerState.Running (t : TracerState) : Bool := isChannelPinged t.runningClosed

/-- Method `Stopped` (lines 108-110). -/
def TracerState.Stopped (t : TracerState) : Bool := isChannelPinged t.stoppedClosed

/-- The heap of `Config` values that `*Config` pointers refer to. -/
def Heap : Type := Nat → Option Config

/-- Write through a `*Config` pointer. -/
def Heap.write (h : Heap) (ref : Nat) (cfg : Config) : Heap :=
  fun j => if j = ref then some cfg else h j

/-- Whole-process state: the config heap, the `globalTracer` singleton
slot (line 19), the POST requests issued so far, the log stream, and
whether a goroutine panic has crashed the process. -/
structure SysState where
  heap : Heap
  globalTracer : Option TracerState
  posts : List Post
  logs : List LogMsg
  crashed : Bool

/-- Dereference a tracer's `*Config`.  In Go the pointer stored by
`CreateTracer` is always valid; the default is unreachable. -/
def getConfig (s : SysState) (t : TracerState) : Config :=
  (s.heap t.configRef).getD { ApplicationName := "", Token := "", CollectorURL := "", MetadataOnly := false, Debug := false }

/-- `CreateTracer` (lines 138-160).  Under the mutex: if the singleton
holds a non-stopped tracer, log "The tracer is already created" and return
without touching anything.  Otherwise mutate the caller's Config in place
via `fillConfigDefaults`, store a fresh tracer (empty buffers, fresh open
channels) holding that same pointer, and launch `Run`.  The launched run
loop's preamble (lines 219-227) runs before any channel handoff can
complete: it logs in debug mode, finds `Running()` false on the fresh
tracer, and closes `running`; the sequential model folds that preamble
into creation.  An invalid heap reference cannot arise in Go (a `*Config`
argument points at a Config); the model returns the state unchanged. -/
def CreateTracer (env : Env) (s : SysState) (ref : Nat) : SysState :=
  let fresh : SysState → SysState := fun s =>
    match s.heap ref with
    | none => s
    | some cfg =>
      let res := fillConfigDefaults env cfg
      let createLogs := if res.1.Debug then [LogMsg.debugCreatedTracer] else []
      let runLogs := if res.1.Debug then [LogMsg.debugTracerStarted] else []
      { s with
        heap := s.heap.write ref res.1
        globalTracer := some
          { configRef := ref, events := [], exceptions := [],
            runningClosed := true, stoppedClosed := false }
        logs := s.logs ++ res.2 ++ createLogs ++ runLogs }
  match s.globalTracer with
  | some t => if !t.Stopped then { s with logs := s.logs ++ [LogMsg.tracerAlreadyCreated] } else fresh s
  | none => fresh s

/-- Method `AddEvent` (lines 168-173) composed with the run loop's
`eventsPipe` branch (lines 231-232): the blocking send returns once the
loop has appended the event; then the method logs in debug mode. -/
def TracerState.methodAddEvent (s : SysState) (t : TracerState) (e : Event) : SysState :=
  let t' := { t with events := t.events ++ [e] }
  let dbg := if (getConfig s t).Debug then [LogMsg.debugAddingEvent e] else []
  { s with globalTracer := some t', logs := s.logs ++ dbg }

/-- Method `AddException` (lines 163-165) composed with the run loop's
`exceptionsPipe` branch (lines 233-234). -/
def TracerState.methodAddException (s : SysState) (t : TracerState) (x : Exception) : SysState :=
  { s with globalTracer := some { t with exceptions := t.exceptions ++ [x] } }

/-- Free function `AddEvent` (lines 176-183): no-op with a warning when
the singleton is absent or stopped, otherwise delegates. -/
def AddEvent (s : SysState) (e : Event) : SysState :=
  match s.globalTracer with
  | none => { s with logs := s.logs ++ [LogMsg.tracerNotInitialized] }
  | some t =>
    if t.Stopped then { s with logs := s.logs ++ [LogMsg.tracerNotInitialized] }
    else t.methodAddEvent s e

/-- Free function `AddException` (lines 186-193). -/
def AddException (s : SysState) (x : Exception) : SysState :=
  match s.globalTracer with
  | none => { s with logs := s.logs ++ [LogMsg.tracerNotInitialized] }
  | some t =>
    if t.Stopped then { s with logs := s.logs ++ [LogMsg.tracerNotInitialized] }
    else t.methodAddException s x

/-- Method `Stop` (lines 196-204) composed with the run loop's `closeCmd`
branch and exit (lines 235-241 and the deferred statements on lines
226-227).  If `stopped` is already closed, return immediately.  Otherwise
the `closeCmd` handoff makes the loop log in debug mode, run `sendTraces`,
and return; the deferred calls then run in LIFO order: `close(stopped)`
first, then `running = make(chan struct{})` (a fresh open channel).
`Stop`'s wait on `stopped` then completes.  A panic inside `sendTraces`
still runs both deferred statements and then crashes the process. -/
def TracerState.Stop (oracle : Oracle) (s : SysState) (t : TracerState) : SysState :=
  if t.Stopped then s
  else
    let cfg := getConfig s t
    let dbg := if cfg.Debug then [LogMsg.debugTracerStopsRunning] else []
    let r := sendTraces oracle cfg t.events t.exceptions
    { s with
      globalTracer := some { t with runningClosed := false, stoppedClosed := true }
      posts := s.posts ++ r.posts
      logs := s.logs ++ dbg ++ r.logs
      crashed := s.crashed || r.panicked }

/-- Free function `StopTracer` (lines 207-214): no-op with a warning when
the singleton is absent or stopped, otherwise delegates to `Stop`. -/
def StopTracer (oracle : Oracle) (s : SysState) : SysState :=
  match s.globalTracer with
  | none => { s with logs := s.logs ++ [LogMsg.tracerNotInitialized] }
  | some t =>
    if t.Stopped then { s with logs := s.logs ++ [LogMsg.tracerNotInitialized] }
    else t.Stop oracle s

/-- One API call made by the host application. -/
inductive Op where
  | createTracer (ref : Nat)
  | addEvent (e : Event)
  | addException (x : Exception)
  | stopTracer
deriving DecidableEq, Repr

/-- Interpret one API call. -/
def step (env : Env) (oracle : Oracle) (s : SysState) : Op → SysState
  | Op.createTracer ref => CreateTracer env s ref
  | Op.addEvent e => AddEvent s e
  | Op.addException x => AddException s x
  | Op.stopTracer => StopTracer oracle s

/-- Interpret a sequence of API calls. -/
def runOps (env : Env) (oracle : Oracle) (s : SysState) (ops : List Op) : SysState :=
  ops.foldl (step env oracle) s

/-- The fresh process: given configs on the heap, no singleton, no posts,
no logs, not crashed. -/
def initState (heap : Heap) : SysState :=
  { heap := heap, globalTracer := none, posts := [], logs := [], crashed := false }

/-- A one-cell heap holding `cfg` at reference 0. -/
def heap1 (cfg : Config) : Heap :=
  fun j => if j = 0 then some cfg else none

/-- An environment with none of the three variables set. -/
def exampleEnv : Env :=
  { EPSAGON_DEBUG := "", EPSAGON_TOKEN := "", AWS_REGION := "" }

/-- The fully-specified config of the spec's main scenario. -/
def exampleConfig : Config :=
  { ApplicationName := "svc", Token := "t1", CollectorURL := "http://example",
    MetadataOnly := false, Debug := false }

/-- Externals all succeeding: marshaling works, the POST gets a 200. -/
def exampleOracle : Oracle :=
  { platform := "go1.11", marshalFails := false,
    postResult := PostResult.response 200 "" }

/-- Externals with a failing transport: `client.Post` returns a non-nil
error, hence a nil response. -/
def exampleOracleNetError : Oracle :=
  { platform := "go1.11", marshalFails := false,
    postResult := PostResult.netError "connection refused" }

/-- Externals where the collector answers HTTP 500 (err = nil). -/
def exampleOracle500 : Oracle :=
  { platform := "go1.11", marshalFails := false,
    postResult := PostResult.response 500 "internal server error" }

/-- The state after CreateTracer(exampleConfig); StopTracer() with all
externals succeeding. -/
def exampleStopped : SysState :=
  runOps exampleEnv exampleOracle (initState (heap1 exampleConfig))
    [Op.createTracer 0, Op.stopTracer]

/-- The tracer held by `exampleStopped`: buffers empty, `running` reset to
a fresh open channel, `stopped` closed. -/
def exampleStoppedTracer : TracerState :=
  { configRef := 0, events := [], exceptions := [],
    runningClosed := false, stoppedClosed := true }

theorem string_length_eq_zero_iff (s : String) : s.length = 0 ↔ s = "" := by
  cases s with
  | mk data => cases data <;> simp [String.length, String.ext_iff]

/-- C1: running the call sequence CreateTracer (ApplicationName "svc",
Token "t1", CollectorURL "http://example"); AddEvent e1; AddEvent e2;
AddException x1; StopTracer makes exactly one HTTP POST, to
"http://example", whose payload carries events [e1, e2] and exceptions
[x1] in arrival order, appName "svc" and token "t1". -/
theorem C1_scenario_exactly_one_post (e1 e2 : Event) (x1 : Exception) :
    (runOps
        { EPSAGON_DEBUG := "", EPSAGON_TOKEN := "", AWS_REGION := "" }
        { platform := "go1.11", marshalFails := false,
          postResult := PostResult.response 200 "" }
        (initState (heap1
          { ApplicationName := "svc", Token := "t1",
            CollectorURL := "http://example", MetadataOnly := false, Debug := false }))
        [Op.createTracer 0, Op.addEvent e1, Op.addEvent e2,
         Op.addException x1, Op.stopTracer]).posts
      = [{ url := "http://example", contentType := "application/json",
           body := { AppName := "svc", Token := "t1", Events := [e1, e2],
                     Exceptions := [x1], Version := "0.0.1",
                     Platform := "go1.11" } }] := rfl

/-- C8: fillConfigDefaults applies each default rule independently, only
when the field is empty, and never fails: Token is copied from
EPSAGON_TOKEN iff empty; CollectorURL, iff empty, becomes
http://{AWS_REGION}.tc.epsagon.com when AWS_REGION is non-empty and the
fixed us-east-1 URL otherwise; non-empty fields are left as given. -/
theorem C8_fillConfigDefaults_rules (env : Env) (config : Config) :
    (fillConfigDefaults env config).1.Token
        = (if config.Token = "" then env.EPSAGON_TOKEN else config.Token) ∧
    (fillConfigDefaults env config).1.CollectorURL
        = (if config.CollectorURL = "" then
             (if env.AWS_REGION = "" then "http://us-east-1.tc.epsagon.com"
              else "http://" ++ env.AWS_REGION ++ ".tc.epsagon.com")
           else config.CollectorURL) ∧
    (fillConfigDefaults env config).1.ApplicationName = config.ApplicationName ∧
    (fillConfigDefaults env config).1.MetadataOnly = config.MetadataOnly := by
  simp only [fillConfigDefaults, string_length_eq_zero_iff, ne_eq]
  split_ifs <;> simp_all

/-- C2 (evaluation at the failing input): when `client.Post` fails with a
transport error the response is nil, line 65 dereferences it, and the
background goroutine panics, crashing the process — the failure is not
absorbed and logged as the claim states. -/
theorem C2_transport_error_crashes :
    (runOps exampleEnv exampleOracleNetError (initState (heap1 exampleConfig))
        [Op.createTracer 0, Op.stopTracer]).crashed = true := rfl

/-- C3 (evaluation at the failing input): when the POST returns HTTP 500
(`client.Post` yields err = nil), sendTraces inspects only err, so the
failure is not logged at all (the log stream stays empty); StopTracer does
return and the instance is marked stopped, and the single POST was made. -/
theorem C3_http_500_is_silent :
    (runOps exampleEnv exampleOracle500 (initState (heap1 exampleConfig))
        [Op.createTracer 0, Op.stopTracer]).logs = [] ∧
    (runOps exampleEnv exampleOracle500 (initState (heap1 exampleConfig))
        [Op.createTracer 0, Op.stopTracer]).globalTracer.map TracerState.Stopped
      = some true ∧
    (runOps exampleEnv exampleOracle500 (initState (heap1 exampleConfig))
        [Op.createTracer 0, Op.stopTracer]).posts.length = 1 :=
  ⟨rfl, rfl, rfl⟩

/-- C4: once a tracer is stopped, a further Stop returns immediately: the
method `Stop` is the identity (no handoff, no flush), and the free
function `StopTracer` only appends the warning log — in particular no
second POST is issued and the serialize+transport cycle does not rerun. -/
theorem C4_stop_idempotent (oracle : Oracle) (s : SysState) (t : TracerState)
    (h : s.globalTracer = some t) (hs : t.Stopped = true) :
    t.Stop oracle s = s ∧
    StopTracer oracle s = { s with logs := s.logs ++ [LogMsg.tracerNotInitialized] } := by
  constructor
  · simp [TracerState.Stop, hs]
  · simp [StopTracer, h, hs]

theorem C4_stop_idempotent_witness :
    exampleStopped.globalTracer = some exampleStoppedTracer ∧
    exampleStoppedTracer.Stopped = true ∧
    TracerState.Stop exampleOracle exampleStopped exampleStoppedTracer = exampleStopped ∧
    StopTracer exampleOracle exampleStopped
      = { exampleStopped with
          logs := exampleStopped.logs ++ [LogMsg.tracerNotInitialized] } :=
  ⟨rfl, rfl,
    (C4_stop_idempotent exampleOracle exampleStopped exampleStoppedTracer rfl rfl).1,
    (C4_stop_idempotent exampleOracle exampleStopped exampleStoppedTracer rfl rfl).2⟩

/-- C5: while the singleton holds a non-stopped tracer, CreateTracer only
logs "The tracer is already created" and changes nothing else — the heap
(so the prior instance's config), the singleton, the posts and the crash
flag are untouched, no fresh tracer or buffer set is created — and an
event added after the second CreateTracer still lands in the first
instance's buffer. -/
theorem C5_create_noop_while_running (env : Env) (s : SysState) (t : TracerState)
    (ref : Nat) (e : Event)
    (h : s.globalTracer = some t) (hr : t.Stopped = false) :
    CreateTracer env s ref = { s with logs := s.logs ++ [LogMsg.tracerAlreadyCreated] } ∧
    (AddEvent (CreateTracer env s ref) e).globalTracer
      = some { t with events := t.events ++ [e] } := by
  have h1 : CreateTracer env s ref
      = { s with logs := s.logs ++ [LogMsg.tracerAlreadyCreated] } := by
    simp [CreateTracer, h, hr]
  refine ⟨h1, ?_⟩
  rw [h1]
  simp [AddEvent, h, hr, TracerState.methodAddEvent]

theorem C5_create_noop_while_running_witness :
    (runOps exampleEnv exampleOracle (initState (heap1 exampleConfig))
        [Op.createTracer 0]).globalTracer
      = some { configRef := 0, events := [], exceptions := [],
               runningClosed := true, stoppedClosed := false } ∧
    TracerState.Stopped
        { configRef := 0, events := [], exceptions := [],
          runningClosed := true, stoppedClosed := false } = false ∧
    (AddEvent
        (CreateTracer exampleEnv
          (runOps exampleEnv exampleOracle (initState (heap1 exampleConfig))
            [Op.createTracer 0]) 0)
        { id := 7 }).globalTracer
      = some { configRef := 0, events := [{ id := 7 }], exceptions := [],
               runningClosed := true, stoppedClosed := false } :=
  ⟨rfl, rfl,
    (C5_create_noop_while_running exampleEnv
      (runOps exampleEnv exampleOracle (initState (heap1 exampleConfig))
        [Op.createTracer 0])
      { configRef := 0, events := [], exceptions := [],
        runningClosed := true, stoppedClosed := false }
      0 { id := 7 } rfl rfl).2⟩

/-- C6: when marshaling the trace fails during the stop-triggered flush,
the error is logged, no POST is issued (the posts list is unchanged), the
buffered data is dropped (nothing is re-queued or retried — the only state
change is the lifecycle flags), the run loop terminates closing `stopped`
(so Stop returns), and the process does not crash. -/
theorem C6_marshal_failure_drops_data (oracle : Oracle) (s : SysState) (t : TracerState)
    (h : s.globalTracer = some t) (hr : t.Stopped = false)
    (hm : oracle.marshalFails = true) :
    StopTracer oracle s = { s with
      globalTracer := some { t with runningClosed := false, stoppedClosed := true }
      logs := s.logs
        ++ (if (getConfig s t).Debug then [LogMsg.debugTracerStopsRunning] else [])
        ++ [LogMsg.marshalError] } := by
  simp [StopTracer, h, hr, TracerState.Stop, sendTraces, getTraceReader, hm]

theorem C6_marshal_failure_drops_data_witness :
    (runOps exampleEnv exampleOracle (initState (heap1 exampleConfig))
        [Op.createTracer 0]).globalTracer
      = some { configRef := 0, events := [], exceptions := [],
               runningClosed := true, stoppedClosed := false } ∧
    TracerState.Stopped
        { configRef := 0, events := [], exceptions := [],
          runningClosed := true, stoppedClosed := false } = false ∧
    ({ platform := "go1.11", marshalFails := true,
       postResult := PostResult.response 200 "" } : Oracle).marshalFails = true ∧
    StopTracer
        { platform := "go1.11", marshalFails := true,
          postResult := PostResult.response 200 "" }
        (runOps exampleEnv exampleOracle (initState (heap1 exampleConfig))
          [Op.createTracer 0])
      = { runOps exampleEnv exampleOracle (initState (heap1 exampleConfig))
            [Op.createTracer 0] with
          globalTracer := some { configRef := 0, events := [], exceptions := [],
                                 runningClosed := false, stoppedClosed := true }
          logs := (runOps exampleEnv exampleOracle (initState (heap1 exampleConfig))
              [Op.createTracer 0]).logs
            ++ (if (getConfig
                  (runOps exampleEnv exampleOracle (initState (heap1 exampleConfig))
                    [Op.createTracer 0])
                  { configRef := 0, events := [], exceptions := [],
                    runningClosed := true, stoppedClosed := false }).Debug
                then [LogMsg.debugTracerStopsRunning] else [])
            ++ [LogMsg.marshalError] } :=
  ⟨rfl, rfl, rfl,
    C6_marshal_failure_drops_data
      { platform := "go1.11", marshalFails := true,
        postResult := PostResult.response 200 "" }
      (runOps exampleEnv exampleOracle (initState (heap1 exampleConfig))
        [Op.createTracer 0])
      { configRef := 0, events := [], exceptions := [],
        runningClosed := true, stoppedClosed := false }
      rfl rfl rfl⟩

/-- C7: whenever the singleton is absent or holds a stopped tracer, each
of the free functions AddEvent, AddException and StopTracer only appends
the warning "The tracer is not initialized!" and leaves the heap, the
singleton, the posts and the crash flag unchanged. -/
theorem C7_uninitialized_calls_are_noops (oracle : Oracle) (s : SysState)
    (e : Event) (x : Exception)
    (h : s.globalTracer = none ∨ ∃ t, s.globalTracer = some t ∧ t.Stopped = true) :
    AddEvent s e = { s with logs := s.logs ++ [LogMsg.tracerNotInitialized] } ∧
    AddException s x = { s with logs := s.logs ++ [LogMsg.tracerNotInitialized] } ∧
    StopTracer oracle s = { s with logs := s.logs ++ [LogMsg.tracerNotInitialized] } := by
  rcases h with h | ⟨t, h, hs⟩
  · exact ⟨by simp [AddEvent, h], by simp [AddException, h], by simp [StopTracer, h]⟩
  · exact ⟨by simp [AddEvent, h, hs], by simp [AddException, h, hs],
      by simp [StopTracer, h, hs]⟩

theorem C7_uninitialized_calls_are_noops_witness :
    ((initState (heap1 exampleConfig)).globalTracer = none ∨
      ∃ t, (initState (heap1 exampleConfig)).globalTracer = some t ∧
        t.Stopped = true) ∧
    AddEvent (initState (heap1 exampleConfig)) { id := 7 }
      = { initState (heap1 exampleConfig) with
          logs := (initState (heap1 exampleConfig)).logs
            ++ [LogMsg.tracerNotInitialized] } ∧
    AddException (initState (heap1 exampleConfig)) { id := 8 }
      = { initState (heap1 exampleConfig) with
          logs := (initState (heap1 exampleConfig)).logs
            ++ [LogMsg.tracerNotInitialized] } ∧
    StopTracer exampleOracle (initState (heap1 exampleConfig))
      = { initState (heap1 exampleConfig) with
          logs := (initState (heap1 exampleConfig)).logs
            ++ [LogMsg.tracerNotInitialized] } :=
  ⟨Or.inl rfl,
    C7_uninitialized_calls_are_noops exampleOracle (initState (heap1 exampleConfig))
      { id := 7 } { id := 8 } (Or.inl rfl)⟩

/-- C9 counterexample: after CreateTracer; StopTracer the singleton still
holds the same, never replaced tracer, Stopped() is true, yet Running() is
false — Run's deferred statement replaced the `running` channel with a
fresh open one when the run loop exited, not when the instance was
replaced, so Running() does not stay true after Stop completes. -/
theorem C9_running_false_after_stop :
    exampleStopped.globalTracer.map TracerState.Running = some false ∧
    exampleStopped.globalTracer.map TracerState.Stopped = some true :=
  ⟨rfl, rfl⟩

theorem step_flags_invariant (env : Env) (oracle : Oracle) (s : SysState) (op : Op)
    (h : ∀ u, s.globalTracer = some u → u.Running = !u.Stopped)
    (t : TracerState) (ht : (step env oracle s op).globalTracer = some t) :
    t.Running = !t.Stopped := by
  cases op with
  | createTracer ref =>
    cases hG : s.globalTracer with
    | none =>
      cases hH : s.heap ref with
      | none =>
        simp only [step, CreateTracer, hG, hH] at ht
        exact h t (hG ▸ ht)
      | some cfg =>
        simp only [step, CreateTracer, hG, hH] at ht
        obtain rfl := (Option.some_injective _ ht).symm
        rfl
    | some t0 =>
      by_cases hs : t0.Stopped
      · cases hH : s.heap ref with
        | none =>
          simp only [step, CreateTracer, hG, hs, Bool.not_true, Bool.false_eq_true,
            if_false, hH] at ht
          exact h t (hG ▸ ht)
        | some cfg =>
          simp only [step, CreateTracer, hG, hs, Bool.not_true, Bool.false_eq_true,
            if_false, hH] at ht
          obtain rfl := (Option.some_injective _ ht).symm
          rfl
      · simp only [step, CreateTracer, hG, Bool.not_eq_true] at ht
        rw [if_pos (by simp [hs])] at ht
        exact h t (hG ▸ ht)
  | addEvent e =>
    cases hG : s.globalTracer with
    | none =>
      simp only [step, AddEvent, hG] at ht
      exact h t (hG ▸ ht)
    | some t0 =>
      by_cases hs : t0.Stopped
      · simp only [step, AddEvent, hG, hs, if_true] at ht
        exact h t (hG ▸ ht)
      · simp only [step, AddEvent, hG, hs, if_false, TracerState.methodAddEvent] at ht
        obtain rfl := (Option.some_injective _ ht).symm
        exact h t0 hG
  | addException x =>
    cases hG : s.globalTracer with
    | none =>
      simp only [step, AddException, hG] at ht
      exact h t (hG ▸ ht)
    | some t0 =>
      by_cases hs : t0.Stopped
      · simp only [step, AddException, hG, hs, if_true] at ht
        exact h t (hG ▸ ht)
      · simp only [step, AddException, hG, hs, if_false,
          TracerState.methodAddException] at ht
        obtain rfl := (Option.some_injective _ ht).symm
        exact h t0 hG
  | stopTracer =>
    cases hG : s.globalTracer with
    | none =>
      simp only [step, StopTracer, hG] at ht
      exact h t (hG ▸ ht)
    | some t0 =>
      by_cases hs : t0.Stopped
      · simp only [step, StopTracer, hG, hs, if_true] at ht
        exact h t (hG ▸ ht)
      · simp only [step, StopTracer, hG, hs, if_false, TracerState.Stop] at ht
        obtain rfl := (Option.some_injective _ ht).symm
        rfl

theorem runOps_flags_invariant (env : Env) (oracle : Oracle) (ops : List Op)
    (s : SysState)
    (h : ∀ u, s.globalTracer = some u → u.Running = !u.Stopped)
    (t : TracerState) (ht : (runOps env oracle s ops).globalTracer = some t) :
    t.Running = !t.Stopped := by
  induction ops generalizing s with
  | nil => exact h t ht
  | cons op ops ih =>
    exact ih (step env oracle s op)
      (fun u hu => step_flags_invariant env oracle s op h u hu) ht

/-- C9 (amended): in every reachable state the singleton's tracer
satisfies Running() = !Stopped(): Running() is true from the moment the
run loop has started until the run loop exits at the end of the
stop-triggered flush, and false afterwards even before the instance is
replaced; Stopped() is true exactly from the moment the flush has
completed. -/
theorem C9_running_iff_not_stopped (env : Env) (oracle : Oracle) (heap : Heap)
    (ops : List Op) (t : TracerState)
    (h : (runOps env oracle (initState heap) ops).globalTracer = some t) :
    t.Running = !t.Stopped :=
  runOps_flags_invariant env oracle ops (initState heap)
    (fun u hu => by simp [initState] at hu) t h

theorem C9_running_iff_not_stopped_witness :
    (runOps exampleEnv exampleOracle (initState (heap1 exampleConfig))
        [Op.createTracer 0]).globalTracer
      = some { configRef := 0, events := [], exceptions := [],
               runningClosed := true, stoppedClosed := false } ∧
    TracerState.Running
        { configRef := 0, events := [], exceptions := [],
          runningClosed := true, stoppedClosed := false }
      = !TracerState.Stopped
          { configRef := 0, events := [], exceptions := [],
            runningClosed := true, stoppedClosed := false } :=
  ⟨rfl,
    C9_running_iff_not_stopped exampleEnv exampleOracle (heap1 exampleConfig)
      [Op.createTracer 0]
      { configRef := 0, events := [], exceptions := [],
        runningClosed := true, stoppedClosed := false } rfl⟩

/-- C10: when no running instance is in the way, CreateTracer resolves the
defaults by mutating the caller's Config cell in place — afterwards the
caller's pointer reads back the resolved config — and the new singleton
tracer stores that same reference, so the tracer's config aliases the
caller's value. -/
theorem C10_create_aliases_caller_config (env : Env) (s : SysState)
    (ref : Nat) (cfg : Config)
    (hfree : s.globalTracer = none ∨ ∃ t, s.globalTracer = some t ∧ t.Stopped = true)
    (hcfg : s.heap ref = some cfg) :
    (CreateTracer env s ref).heap ref = some (fillConfigDefaults env cfg).1 ∧
    (CreateTracer env s ref).globalTracer
      = some { configRef := ref, events := [], exceptions := [],
               runningClosed := true, stoppedClosed := false } := by
  rcases hfree with h | ⟨t, h, hs⟩
  · constructor <;> simp [CreateTracer, h, hcfg, Heap.write]
  · constructor <;> simp [CreateTracer, h, hs, hcfg, Heap.write]

theorem C10_create_aliases_caller_config_witness :
    ((initState (heap1
        { ApplicationName := "svc", Token := "", CollectorURL := "",
          MetadataOnly := false, Debug := false })).globalTracer = none ∨
      ∃ t, (initState (heap1
        { ApplicationName := "svc", Token := "", CollectorURL := "",
          MetadataOnly := false, Debug := false })).globalTracer = some t ∧
        t.Stopped = true) ∧
    (initState (heap1
        { ApplicationName := "svc", Token := "", CollectorURL := "",
          MetadataOnly := false, Debug := false })).heap 0
      = some { ApplicationName := "svc", Token := "", CollectorURL := "",
               MetadataOnly := false, Debug := false } ∧
    (CreateTracer
        { EPSAGON_DEBUG := "", EPSAGON_TOKEN := "tok-env", AWS_REGION := "eu-west-1" }
        (initState (heap1
          { ApplicationName := "svc", Token := "", CollectorURL := "",
            MetadataOnly := false, Debug := false })) 0).heap 0
      = some (fillConfigDefaults
          { EPSAGON_DEBUG := "", EPSAGON_TOKEN := "tok-env", AWS_REGION := "eu-west-1" }
          { ApplicationName := "svc", Token := "", CollectorURL := "",
            MetadataOnly := false, Debug := false }).1 ∧
    (CreateTracer
        { EPSAGON_DEBUG := "", EPSAGON_TOKEN := "tok-env", AWS_REGION := "eu-west-1" }
        (initState (heap1
          { ApplicationName := "svc", Token := "", CollectorURL := "",
            MetadataOnly := false, Debug := false })) 0).globalTracer
      = some { configRef := 0, events := [], exceptions := [],
               runningClosed := true, stoppedClosed := false } :=
  ⟨Or.inl rfl, rfl,
    C10_create_aliases_caller_config
      { EPSAGON_DEBUG := "", EPSAGON_TOKEN := "tok-env", AWS_REGION := "eu-west-1" }
      (initState (heap1
        { ApplicationName := "svc", Token := "", CollectorURL := "",
          MetadataOnly := false, Debug := false })) 0
      { ApplicationName := "svc", Token := "", CollectorURL := "",
        MetadataOnly := false, Debug := false }
      (Or.inl rfl) rfl⟩

end Epsagon
